import Mathlib

/-!
# LearningCpp: the Entity / Player demonstration

A shallow embedding of `LearningCpp/LearningCpp.cpp`.

* A C++ `int` member is an `Int`.  The program only stores and reads these
  members, it never does arithmetic on them, so no wrap-around is involved.
* A constructor is a function from the storage it is run on (whose previous
  contents are indeterminate) to the constructed object, so that a member a
  constructor forgets to set would keep the indeterminate value.
* A member function that writes to `*this` returns the updated object next to
  its result.
* A complete object carries its dynamic type: `Object.entity` or
  `Object.player`.  A pointer to the `Entity` base is `Option Object`, the
  null pointer being `none`.
* The program state holds the static member `Entity::a`, the text written to
  `std::cout`, and the log of the objects constructed so far.
-/

namespace LearningCpp

/-! ## class Entity -/

/-- The data members of `class Entity`: `int x, y; mutable int var;`. -/
structure Entity where
  x : Int
  y : Int
  var : Int
  deriving DecidableEq

namespace Entity

/-- Constructor `Entity() : x(0), y(0), var(0) {}`. -/
def ctor (self : Entity) : Entity :=
  let self := { self with x := 0 }
  let self := { self with y := 0 }
  let self := { self with var := 0 }
  self

/-- Constructor `Entity(int x, int y) { this->x = x; this->y = y; this->var = 0; }`. -/
def ctorXY (self : Entity) (x y : Int) : Entity :=
  let self := { self with x := x }
  let self := { self with y := y }
  let self := { self with var := 0 }
  self

/-- Constructor `Entity(int x) : y(0), var(0) { this->x = x; }`. -/
def ctorX (self : Entity) (x : Int) : Entity :=
  let self := { self with y := 0 }
  let self := { self with var := 0 }
  let self := { self with x := x }
  self

/-- Constructor `explicit Entity(double val) : x(0), y(0), var(0) {}`: `val` is
not used. -/
def ctorDouble (self : Entity) (_val : Float) : Entity :=
  let self := { self with x := 0 }
  let self := { self with y := 0 }
  let self := { self with var := 0 }
  self

/-- Member `virtual std::string getName() { return "Entity"; }`. -/
def getName (_self : Entity) : String :=
  "Entity"

/-- Member `int getX() const { this->var = 2; return this->x; }`: the result and
the object after the call. -/
def getXConst (self : Entity) : Int × Entity :=
  let self := { self with var := 2 }
  (self.x, self)

/-- Member `int getX() { return this->x; }`: the result and the object after the
call. -/
def getX (self : Entity) : Int × Entity :=
  (self.x, self)

/-- Member `void print() {}`. -/
def print (self : Entity) : Entity :=
  self

end Entity

/-- Function `void printEntity(const Entity& e) { e.getX(); }`: the argument after
the call.  Through a const reference the call resolves to the const overload. -/
def printEntity (e : Entity) : Entity :=
  (Entity.getXConst e).2

/-! ## class Player : public Entity -/

/-- Class `class Player : public Entity`: the base subobject and no member of
its own. -/
structure Player where
  toEntity : Entity
  deriving DecidableEq

namespace Player

/-- The implicitly defined `Player()`: it runs `Entity()` on the base
subobject. -/
def ctor (self : Player) : Player :=
  { self with toEntity := Entity.ctor self.toEntity }

/-- Member `std::string getName() override { return "Player"; }`. -/
def getName (_self : Player) : String :=
  "Player"

end Player

/-! ## Complete objects, base pointers, virtual dispatch, dynamic_cast -/

/-- The dynamic type of a complete object. -/
inductive Variant where
  | entity
  | player
  deriving DecidableEq

/-- A complete object of dynamic type `Entity` or `Player`. -/
inductive Object where
  | entity (e : Entity)
  | player (p : Player)
  deriving DecidableEq

namespace Object

/-- The dynamic type of the object. -/
def variant : Object → Variant
  | .entity _ => Variant.entity
  | .player _ => Variant.player

/-- The `Entity` base subobject, which is what an `Entity*` designates. -/
def base : Object → Entity
  | .entity e => e
  | .player p => p.toEntity

/-- The call `ptr->getName()` through an `Entity*`: `getName` is virtual, so
the final overrider of the dynamic type runs. -/
def getName : Object → String
  | .entity e => Entity.getName e
  | .player p => Player.getName p

end Object

/-- An `Entity*`: null, or the complete object it points into. -/
abbrev EntityPtr := Option Object

/-- A `Player*`: null, or the `Player` it points to. -/
abbrev PlayerPtr := Option Player

/-- The cast `dynamic_cast<Player*>(ptr)` for `Entity* ptr`: the `Player` when the
object pointed to has dynamic type `Player`, the null pointer otherwise
("If dynamic_cast fails, it returns nullptr"). -/
def dynamicCastPlayer : EntityPtr → PlayerPtr
  | none => none
  | some (.entity _) => none
  | some (.player p) => some p

/-! ## Program state and `main` -/

/-- The program state: the static member `Entity::a`, the text written to
`std::cout`, and the objects constructed so far, most recent first. -/
structure State where
  a : Int
  out : String
  objs : List Object

namespace State

/-- The state at program start: `int Entity::a;` has static storage duration
and is zero-initialised, nothing is written, nothing is constructed. -/
def init : State :=
  { a := 0, out := "", objs := [] }

/-- Statement `std::cout << text`. -/
def cout (text : String) (s : State) : State :=
  { s with out := s.out ++ text }

/-- Statement `Entity::a = v`. -/
def assignA (v : Int) (s : State) : State :=
  { s with a := v }

/-- An object has been constructed.  No constructor of `Entity` or `Player`
mentions `Entity::a` or `std::cout`. -/
def construct (o : Object) (s : State) : State :=
  { s with objs := o :: s.objs }

/-- A sequence of constructions, in order. -/
def constructAll (os : List Object) (s : State) : State :=
  os.foldl (fun s o => construct o s) s

end State

/-- The end of `main`, from `if (p) { /* Cast succeeded */ }` on: both
branches are empty, `const int& example = 10;` has no effect, and falling off
the end of `main` returns 0. -/
def mainTail (p : PlayerPtr) (s : State) : Int × State :=
  let s := if p.isSome then s else s
  (0, s)

/-- The function `main`: exit code and final state.  `mem i` is the
indeterminate content of the storage of the `i`-th object constructed.
Statements that only declare scalars, pointers or types (`ptr`, `a`, `count`,
`name`, `b`, `c`, `Vector2`, the anonymous union, `weakEntity`) touch neither
`Entity::a`, `std::cout` nor any `Entity`, and are left out. -/
def main (mem : Nat → Entity) (s : State) : Int × State :=
  -- std::cout << "Hello World!\n";
  let s := State.cout "Hello World!\n" s
  -- Entity e;
  let e := Entity.ctor (mem 0)
  let s := State.construct (.entity e) s
  -- Entity e1 = { 5, 8 };
  let e1 := Entity.ctorXY (mem 1) 5 8
  let s := State.construct (.entity e1) s
  -- Entity e2 = Entity(1, 2);
  let e2 := Entity.ctorXY (mem 2) 1 2
  let s := State.construct (.entity e2) s
  -- Entity e3 = 2;
  let e3 := Entity.ctorX (mem 3) 2
  let s := State.construct (.entity e3) s
  -- Entity::a = 1;
  let s := State.assignA 1 s
  -- std::unique_ptr<Entity> entity(new Entity());
  let entity := Entity.ctor (mem 4)
  let s := State.construct (.entity entity) s
  -- std::unique_ptr<Entity> entity1 = std::make_unique<Entity>();
  let entity1 := Entity.ctor (mem 5)
  let s := State.construct (.entity entity1) s
  -- entity->print();
  let _entity := Entity.print entity
  -- std::shared_ptr<Entity> sharedEntity = std::make_shared<Entity>();
  let sharedEntity := Entity.ctor (mem 6)
  let s := State.construct (.entity sharedEntity) s
  -- Entity* player = new Player();
  let playerObj := Object.player (Player.ctor ⟨mem 7⟩)
  let s := State.construct playerObj s
  let player : EntityPtr := some playerObj
  -- Player* p = dynamic_cast<Player*>(player);
  let p := dynamicCastPlayer player
  -- if (p) { } ... end of main
  mainTail p s

/-! ## Properties -/

/-- Constructing objects never changes `Entity::a`. -/
theorem State.constructAll_a (os : List Object) (s : State) :
    (State.constructAll os s).a = s.a := by
  induction os generalizing s with
  | nil => rfl
  | cons o os ih =>
    show (State.constructAll os (State.construct o s)).a = s.a
    rw [ih]
    rfl

/-- C1: for every object reached through an `Entity*`, the dynamic cast to
`Player*` is non-null exactly when the dynamic type of the object is `Player`:
on a `Player` it yields that `Player`, on a plain `Entity` it yields the null
pointer. -/
theorem dynamicCastPlayer_isSome_iff (o : Object) :
    ((dynamicCastPlayer (some o)).isSome = true ↔ o.variant = Variant.player)
    ∧ (∀ p : Player, dynamicCastPlayer (some (Object.player p)) = some p)
    ∧ (∀ e : Entity, dynamicCastPlayer (some (Object.entity e)) = none) := by
  refine ⟨?_, fun _ => rfl, fun _ => rfl⟩
  cases o with
  | entity e => simp [dynamicCastPlayer, Object.variant]
  | player p => simp [dynamicCastPlayer, Object.variant]

/-- C2: `getName()` on a plain `Entity` returns "Entity", whatever its members
hold and whichever constructor built it, both called directly and through an
`Entity*`. -/
theorem entity_getName (e raw : Entity) (x y : Int) (val : Float) :
    Entity.getName e = "Entity"
    ∧ Object.getName (Object.entity e) = "Entity"
    ∧ Object.getName (Object.entity (Entity.ctor raw)) = "Entity"
    ∧ Object.getName (Object.entity (Entity.ctorXY raw x y)) = "Entity"
    ∧ Object.getName (Object.entity (Entity.ctorX raw x)) = "Entity"
    ∧ Object.getName (Object.entity (Entity.ctorDouble raw val)) = "Entity" :=
  ⟨rfl, rfl, rfl, rfl, rfl, rfl⟩

/-- C3: `getName()` on a `Player` returns "Player", also when called through an
`Entity*`: the virtual call runs the override of the dynamic type, not
`Entity::getName` of the pointer's static type. -/
theorem player_getName (p : Player) :
    Player.getName p = "Player"
    ∧ Object.getName (Object.player p) = "Player"
    ∧ Object.getName (Object.player p) ≠ Entity.getName (Object.base (Object.player p)) := by
  refine ⟨rfl, rfl, ?_⟩
  show "Player" ≠ "Entity"
  decide

/-- C4: a default-constructed `Entity` has `x = 0`, `y = 0` and `var = 0`,
whatever its storage held before, and both `getX()` overloads return 0 on it. -/
theorem ctor_zero (raw : Entity) :
    (Entity.ctor raw).x = 0 ∧ (Entity.ctor raw).y = 0 ∧ (Entity.ctor raw).var = 0
    ∧ (Entity.getX (Entity.ctor raw)).1 = 0
    ∧ (Entity.getXConst (Entity.ctor raw)).1 = 0 :=
  ⟨rfl, rfl, rfl, rfl, rfl⟩

/-- C5: after `Entity::a = 1` the static member is 1, whatever objects were
constructed before the assignment and whatever objects are constructed after
it; in particular `Entity::a` is 1 when `main` ends. -/
theorem assignA_one_persists (s : State) (before after : List Object)
    (mem : Nat → Entity) :
    (State.assignA 1 (State.constructAll before s)).a = 1
    ∧ (State.constructAll after (State.assignA 1 (State.constructAll before s))).a = 1
    ∧ (main mem s).2.a = 1 := by
  refine ⟨rfl, ?_, rfl⟩
  rw [State.constructAll_a]
  rfl

/-- C6: the const overload of `getX()` returns `x`, sets `var` to 2 and leaves
`x` and `y` unchanged; `printEntity` has exactly that effect on its
argument. -/
theorem getXConst_effect (e : Entity) :
    (Entity.getXConst e).1 = e.x
    ∧ (Entity.getXConst e).2.var = 2
    ∧ (Entity.getXConst e).2.x = e.x
    ∧ (Entity.getXConst e).2.y = e.y
    ∧ printEntity e = (Entity.getXConst e).2
    ∧ printEntity e = { x := e.x, y := e.y, var := 2 } :=
  ⟨rfl, rfl, rfl, rfl, rfl, rfl⟩

/-- C7: every `Entity` constructor leaves each member it is given no value for
at zero, whatever the storage held before: `Entity()` gives (0, 0, 0),
`Entity(x)` gives (x, 0, 0), `Entity(x, y)` gives (x, y, 0) and
`Entity(double)` gives (0, 0, 0). -/
theorem ctors_zero_unspecified (raw : Entity) (x y : Int) (val : Float) :
    Entity.ctor raw = { x := 0, y := 0, var := 0 }
    ∧ Entity.ctorX raw x = { x := x, y := 0, var := 0 }
    ∧ Entity.ctorXY raw x y = { x := x, y := y, var := 0 }
    ∧ Entity.ctorDouble raw val = { x := 0, y := 0, var := 0 } :=
  ⟨rfl, rfl, rfl, rfl⟩

/-- C8: a run of `main` writes exactly "Hello World!" and a newline to the
console and returns 0; the end of `main` returns 0 and leaves the state as it
is whether the dynamic cast gave a null pointer or not. -/
theorem main_output (mem : Nat → Entity) :
    (main mem State.init).1 = 0
    ∧ (main mem State.init).2.out = "Hello World!\n"
    ∧ (∀ s : State, (main mem s).1 = 0 ∧ (main mem s).2.out = s.out ++ "Hello World!\n")
    ∧ (∀ (p : PlayerPtr) (s : State), mainTail p s = (0, s)) := by
  refine ⟨rfl, rfl, fun s => ⟨rfl, rfl⟩, fun p s => ?_⟩
  simp [mainTail]

/-- C9: the two `getX()` overloads return the same value, the `x` of the
entity, and agree on `x` and `y` afterwards; the non-const overload leaves the
whole object unchanged, the const overload changes `var` alone, to 2. -/
theorem getX_overloads (e : Entity) :
    (Entity.getX e).1 = e.x
    ∧ (Entity.getXConst e).1 = e.x
    ∧ (Entity.getX e).1 = (Entity.getXConst e).1
    ∧ (Entity.getX e).2.x = (Entity.getXConst e).2.x
    ∧ (Entity.getX e).2.y = (Entity.getXConst e).2.y
    ∧ (Entity.getX e).2 = e
    ∧ (Entity.getXConst e).2 = { e with var := 2 } :=
  ⟨rfl, rfl, rfl, rfl, rfl, rfl, rfl⟩

/-- C10: `Entity(double val)` discards `val`: the entity it builds equals a
default-constructed one member for member and `getX()` returns 0 on it,
whereas `Entity(int x)` keeps its argument and `getX()` returns `x`. -/
theorem ctorDouble_discards (val : Float) (raw raw2 : Entity) (x : Int) :
    Entity.ctorDouble raw val = Entity.ctor raw2
    ∧ (Entity.getX (Entity.ctorDouble raw val)).1 = 0
    ∧ (Entity.getXConst (Entity.ctorDouble raw val)).1 = 0
    ∧ (Entity.getX (Entity.ctorX raw x)).1 = x
    ∧ (Entity.getXConst (Entity.ctorX raw x)).1 = x :=
  ⟨rfl, rfl, rfl, rfl, rfl⟩

end LearningCpp
